import Mathlib

/-!
Verification of the basechat repository: a shallow embedding of the
chatbot component (`src/components/chatbot/index.tsx`) and the
tenant-setup API route (`src/unnamed/part_000`), with theorems settling
the specification's claims about settings resolution, chat transcript
management, pending-message correlation, source-citation attachment,
model enforcement and tenant provisioning.
-/

namespace Basechat

/-- LLM model identifiers are plain strings in the embedding
(`LLMModel` in `lib/llm/types`). -/
abbrev LLMModel := String

/-- Source-citation metadata is treated opaquely by the chatbot component
(fetched, cached and attached but never inspected), so it is embedded as an
opaque string payload. -/
abbrev SourceMetadata := String

/-- Tenant-scoped search settings (`searchSettingsSchema` of `lib/api` as
used by the component): three boolean flags, each paired with an override
permission. -/
structure SearchSettings where
  isBreadth : Bool
  rerankEnabled : Bool
  prioritizeRecent : Bool
  overrideBreadth : Bool
  overrideRerank : Bool
  overridePrioritizeRecent : Bool
  deriving Repr, DecidableEq

/-- The locally persisted `chatSettings` JSON object. Each field is
optional because the stored JSON may lack it (the component reads
`settings.isBreadth ?? false` etc.). -/
structure SavedChatSettings where
  isBreadth : Option Bool := none
  rerankEnabled : Option Bool := none
  prioritizeRecent : Option Bool := none
  selectedModel : Option LLMModel := none
  deriving Repr, DecidableEq

/-- The component state touched by the settings-resolution effects:
the three boolean flags (`useState(false)` each) and the selected model. -/
structure SettingsState where
  isBreadth : Bool
  rerankEnabled : Bool
  prioritizeRecent : Bool
  selectedModel : LLMModel
  deriving Repr, DecidableEq

/-- The component's initial flag state: all three flags start `false`
(`useState(false)`), the model from the initializer. -/
def initialSettingsState (model : LLMModel) : SettingsState :=
  { isBreadth := false
    rerankEnabled := false
    prioritizeRecent := false
    selectedModel := model }

/-- First settings effect (`fetchTenantSearchSettings`, index.tsx lines
71-111): when the tenant settings were fetched successfully, apply the
tenant value for every flag whose override is disabled; `none` covers the
cases of no `searchSettingsId`, a 404, or a fetch error, in which nothing
is applied. -/
def applyTenantSettings (ts : Option SearchSettings) (st : SettingsState) : SettingsState :=
  match ts with
  | none => st
  | some s =>
    { st with
      isBreadth := if !s.overrideBreadth then s.isBreadth else st.isBreadth
      rerankEnabled := if !s.overrideRerank then s.rerankEnabled else st.rerankEnabled
      prioritizeRecent :=
        if !s.overridePrioritizeRecent then s.prioritizeRecent else st.prioritizeRecent }

/-- Second settings effect (localStorage load, index.tsx lines 114-138),
which runs once `isLoadingSettings` is false: when a stored `chatSettings`
value parsed successfully (`saved = some sv`), apply each stored flag
(defaulting to `false` when the field is absent) only if there are no
tenant settings or the tenant permits override for that flag; the selected
model is always taken from the stored value, defaulting to `initialModel`.
`saved = none` covers both a missing item and a JSON parse error. -/
def loadLocalSettings (ts : Option SearchSettings) (saved : Option SavedChatSettings)
    (initialModel : LLMModel) (st : SettingsState) : SettingsState :=
  match saved with
  | none => st
  | some sv =>
    { isBreadth :=
        if ts.isNone || (ts.map SearchSettings.overrideBreadth).getD false then
          sv.isBreadth.getD false
        else st.isBreadth
      rerankEnabled :=
        if ts.isNone || (ts.map SearchSettings.overrideRerank).getD false then
          sv.rerankEnabled.getD false
        else st.rerankEnabled
      prioritizeRecent :=
        if ts.isNone || (ts.map SearchSettings.overridePrioritizeRecent).getD false then
          sv.prioritizeRecent.getD false
        else st.prioritizeRecent
      selectedModel := sv.selectedModel.getD initialModel }

/-- The settled settings state after both effects have run in their
forced order: the localStorage effect is gated on `isLoadingSettings`
becoming false, which happens in the `finally` of the tenant fetch, so
tenant settings are applied first and the local load second. -/
def resolveSettings (ts : Option SearchSettings) (saved : Option SavedChatSettings)
    (initialModel : LLMModel) (st : SettingsState) : SettingsState :=
  loadLocalSettings ts saved initialModel (applyTenantSettings ts st)

/-- Message roles (`Message = AiMessage | UserMessage | SystemMessage`). -/
inductive Role where
  | user
  | assistant
  | system
  deriving Repr, DecidableEq

/-- A transcript entry. `id`, `sources` and `model` are only populated on
assistant messages in the component (`AiMessage`); user and system
messages carry the defaults. -/
structure Message where
  role : Role
  content : String
  id : Option String := none
  sources : List SourceMetadata := []
  model : Option LLMModel := none
  deriving Repr, DecidableEq

/-- The transient correlation record for the single in-flight assistant
response. The model comes from the `x-model` response header cast with
`as LLMModel`; the header may be absent, hence `Option`. -/
structure PendingMessage where
  id : String
  model : Option LLMModel
  deriving Repr, DecidableEq

/-- The chatbot state touched by the transcript and correlation logic. -/
structure ChatState where
  messages : List Message
  pending : Option PendingMessage
  isLoading : Bool
  deriving Repr, DecidableEq

/-- `handleSubmit` (index.tsx lines 182-199) restricted to its transcript
effect: when `getProviderForModel` yields a provider, exactly one
user-role entry is appended; when it yields none, the handler returns
early and the transcript is untouched. -/
def handleSubmit (content : String) (provider : Option String)
    (msgs : List Message) : List Message :=
  match provider with
  | none => msgs
  | some _ => msgs ++ [{ role := .user, content := content }]

/-- The `useObject` `onFinish` callback (index.tsx lines 173-179): if the
finished stream yielded no valid object (`if (!event.object) return`)
nothing is appended; otherwise one assistant entry with the streamed
content, empty sources, and the pending record's model is appended.
`objMessage = none` models an absent or schema-invalid `event.object`. -/
def onFinishAppend (objMessage : Option String) (pendingModel : Option LLMModel)
    (msgs : List Message) : List Message :=
  match objMessage with
  | none => msgs
  | some content =>
    msgs ++ [{ role := .assistant, content := content, sources := [], model := pendingModel }]

/-- Number of transcript entries with the given role. -/
def countRole (r : Role) (msgs : List Message) : Nat :=
  (msgs.filter (fun m => m.role = r)).length

/-- The `useObject` fetch middleware (index.tsx lines 159-171): reads the
`x-message-id` and `x-model` response headers, `assert(id)` fails when the
id header is absent or the empty string (both falsy), and otherwise the
pending record is set to the new `{id, model}`, overwriting any prior
record. -/
def fetchMiddleware (idHeader : Option String) (modelHeader : Option String)
    (st : ChatState) : Except String ChatState :=
  match idHeader with
  | none => .error "assert(id) failed"
  | some id =>
    if id = "" then .error "assert(id) failed"
    else .ok { st with pending := some { id := id, model := modelHeader } }

/-- The pending-stamp effect (index.tsx lines 201-210): when a pending
record exists and the stream is no longer loading, pop the last transcript
entry; if it is an assistant message, put it back stamped with the pending
id and clear the pending record; otherwise do nothing. -/
def stampPendingEffect (st : ChatState) : ChatState :=
  match st.pending with
  | none => st
  | some p =>
    if st.isLoading then st
    else
      match st.messages.getLast? with
      | none => st
      | some last =>
        if last.role = .assistant then
          { st with
            messages := st.messages.dropLast ++ [{ last with id := some p.id }]
            pending := none }
        else st

/-- The per-message attachment step inside `messagesWithSources`
(index.tsx line 256): an assistant message with a truthy id that has a
cache entry gets its sources replaced by the cached list (a cached empty
array is truthy in JS and is still attached); every other message passes
through unchanged. -/
def attachSources (cache : List (String × List SourceMetadata)) (m : Message) : Message :=
  match m.role, m.id with
  | .assistant, some i =>
    if i = "" then m
    else
      match cache.lookup i with
      | some srcs => { m with sources := srcs }
      | none => m
  | _, _ => m

/-- `messagesWithSources` (index.tsx lines 252-258): keep user and
assistant entries, then merge cached sources into assistant entries by
id. -/
def messagesWithSources (cache : List (String × List SourceMetadata))
    (msgs : List Message) : List Message :=
  (msgs.filter (fun m => m.role = .user || m.role = .assistant)).map (attachSources cache)

/-- The `selectedModel` state initializer (index.tsx lines 53-63):
with a non-empty enabled-model list, keep the global initial model when
`modelSchema.safeParse` succeeds on it and it is enabled, else fall back
to the first enabled model; with an empty list, return the global initial
model unconditionally. -/
def selectedModelInit (enabledModels : List LLMModel) (initialModel : LLMModel)
    (parseSuccess : Bool) : LLMModel :=
  match enabledModels with
  | [] => initialModel
  | m :: _ =>
    if parseSuccess && enabledModels.contains initialModel then initialModel
    else m

/-- The model-enforcement effect (index.tsx lines 261-266): when the
selected model is not in the enabled list, assign `enabledModels[0]`,
which in JS is `undefined` (`none`) on an empty list; when it is
contained, the state is left alone. -/
def enforceSelectedModel (enabledModels : List LLMModel)
    (selectedModel : LLMModel) : Option LLMModel :=
  if enabledModels.contains selectedModel then some selectedModel
  else enabledModels.head?

/-! ### Tenant-setup route (`src/unnamed/part_000`) -/

/-- An authenticated session as used by the route (`session.user.id`). -/
structure Session where
  userId : String
  deriving Repr, DecidableEq

/-- A tenant record as observable through this route: identifier and
display name. -/
structure Tenant where
  id : String
  name : String
  deriving Repr, DecidableEq

/-- A profile record: identifier, owning user, tenant association. -/
structure Profile where
  id : String
  userId : String
  tenantId : String
  deriving Repr, DecidableEq

/-- The persistent state the route touches: tenants, profiles, and each
user's current-profile pointer. -/
structure Db where
  tenants : List Tenant
  profiles : List Profile
  currentProfile : List (String × String)
  deriving Repr, DecidableEq

/-- Errors a request to the route can end in. -/
inductive ApiError where
  | unauthenticated
  | validationError
  | internalError
  deriving Repr, DecidableEq

/-- Modelled from the spec: `createTenant` of `lib/service` is not under
src/; per spec §4.1 it "creates a tenant and a profile" for the given user
and name and returns both identifiers. Fresh identifiers are derived from
the table sizes to keep the model executable. -/
def createTenant (userId name : String) (db : Db) : (String × String) × Db :=
  let tenantId := "tenant-" ++ toString db.tenants.length
  let profileId := "profile-" ++ toString db.profiles.length
  ((profileId, tenantId),
    { db with
      tenants := db.tenants ++ [{ id := tenantId, name := name }]
      profiles := db.profiles ++ [{ id := profileId, userId := userId, tenantId := tenantId }] })

/-- Modelled from the spec: `setCurrentProfileId` of `lib/service` is not
under src/; per spec §4.1 it "binds the profile to the user as current",
i.e. mutates the user's current-profile pointer. -/
def setCurrentProfileId (userId profileId : String) (db : Db) : Db :=
  { db with
    currentProfile := (userId, profileId) :: db.currentProfile.filter (fun p => p.1 ≠ userId) }

/-- The user's current-profile pointer. -/
def currentProfileOf (db : Db) (userId : String) : Option String :=
  db.currentProfile.lookup userId

/-- The trim applied by `z.string().trim()` (JS `String.prototype.trim`):
strip leading and trailing whitespace. Embedded structurally over the
character list so that it evaluates inside the kernel. -/
def jsTrim (s : String) : String :=
  ⟨((s.data.dropWhile Char.isWhitespace).reverse.dropWhile Char.isWhitespace).reverse⟩

/-- The route handler `POST` (part_000 lines 11-19). `session` is the
result of `requireSession` (modelled from spec §4.2: rejects when no valid
session exists), checked before the body is read. `body` is the `name`
field of the JSON body (`none` when the body is malformed or the field is
missing, which `setupSchema.parse` rejects); `setupSchema` trims the name
and requires length ≥ 1. `setCurrentOk` injects the outcome of the
`setCurrentProfileId` call: when it fails, the route throws after
`createTenant` has already persisted its records, and no identifier is
returned. -/
def postTenantSetup (session : Option Session) (body : Option String)
    (setCurrentOk : Bool) (db : Db) : Except ApiError String × Db :=
  match session with
  | none => (.error .unauthenticated, db)
  | some s =>
    match body with
    | none => (.error .validationError, db)
    | some rawName =>
      let name := jsTrim rawName
      if name = "" then (.error .validationError, db)
      else
        let ((profileId, tenantId), db₁) := createTenant s.userId name db
        if setCurrentOk then
          (.ok tenantId, setCurrentProfileId s.userId profileId db₁)
        else (.error .internalError, db₁)

/-! ### Claims about settings resolution -/

/-- C1: for every boolean search flag, when the tenant's search settings
disable override for that flag, the effective value after settings
resolution equals the tenant's fixed value, regardless of any locally
stored user value and of the prior state. -/
theorem flag_fixed_when_override_disabled (s : SearchSettings)
    (saved : Option SavedChatSettings) (initialModel : LLMModel) (st : SettingsState) :
    (s.overrideBreadth = false →
      (resolveSettings (some s) saved initialModel st).isBreadth = s.isBreadth) ∧
    (s.overrideRerank = false →
      (resolveSettings (some s) saved initialModel st).rerankEnabled = s.rerankEnabled) ∧
    (s.overridePrioritizeRecent = false →
      (resolveSettings (some s) saved initialModel st).prioritizeRecent = s.prioritizeRecent) := by
  refine ⟨fun h => ?_, fun h => ?_, fun h => ?_⟩ <;>
    cases saved <;>
    simp [resolveSettings, loadLocalSettings, applyTenantSettings, h]

/-- Witness for C1 at a concrete tenant with all overrides disabled and a
stored user value disagreeing on every flag. -/
theorem flag_fixed_when_override_disabled_witness :
    (resolveSettings
        (some { isBreadth := true, rerankEnabled := true, prioritizeRecent := false,
                overrideBreadth := false, overrideRerank := false,
                overridePrioritizeRecent := false })
        (some { isBreadth := some false, rerankEnabled := some false,
                prioritizeRecent := some true, selectedModel := none })
        "gpt-4" (initialSettingsState "gpt-4")).isBreadth = true ∧
    (resolveSettings
        (some { isBreadth := true, rerankEnabled := true, prioritizeRecent := false,
                overrideBreadth := false, overrideRerank := false,
                overridePrioritizeRecent := false })
        (some { isBreadth := some false, rerankEnabled := some false,
                prioritizeRecent := some true, selectedModel := none })
        "gpt-4" (initialSettingsState "gpt-4")).rerankEnabled = true ∧
    (resolveSettings
        (some { isBreadth := true, rerankEnabled := true, prioritizeRecent := false,
                overrideBreadth := false, overrideRerank := false,
                overridePrioritizeRecent := false })
        (some { isBreadth := some false, rerankEnabled := some false,
                prioritizeRecent := some true, selectedModel := none })
        "gpt-4" (initialSettingsState "gpt-4")).prioritizeRecent = false := by
  have h := flag_fixed_when_override_disabled
    { isBreadth := true, rerankEnabled := true, prioritizeRecent := false,
      overrideBreadth := false, overrideRerank := false, overridePrioritizeRecent := false }
    (some { isBreadth := some false, rerankEnabled := some false,
            prioritizeRecent := some true, selectedModel := none })
    "gpt-4" (initialSettingsState "gpt-4")
  exact ⟨h.1 rfl, h.2.1 rfl, h.2.2 rfl⟩

/-- C2 counterexample: a tenant whose settings permit override of every
flag and set `isBreadth := true` as the tenant default; with no locally
stored user value, the effective `isBreadth` is `false`, not the tenant's
default value. -/
theorem flag_tenant_default_not_applied :
    ¬ ((resolveSettings
          (some { isBreadth := true, rerankEnabled := true, prioritizeRecent := true,
                  overrideBreadth := true, overrideRerank := true,
                  overridePrioritizeRecent := true })
          none "gpt-4" (initialSettingsState "gpt-4")).isBreadth
        = ({ isBreadth := true, rerankEnabled := true, prioritizeRecent := true,
             overrideBreadth := true, overrideRerank := true,
             overridePrioritizeRecent := true : SearchSettings }).isBreadth) := by
  decide

/-- C2 amended: for every boolean search flag whose override is permitted
by the tenant's search settings, when no locally stored user value exists
for that flag, the effective value after settings resolution is the
component's built-in default `false` (the tenant's default value for the
flag is not consulted). -/
theorem flag_default_false_when_override_allowed (s : SearchSettings)
    (saved : Option SavedChatSettings) (initialModel : LLMModel) :
    (s.overrideBreadth = true → saved.bind SavedChatSettings.isBreadth = none →
      (resolveSettings (some s) saved initialModel (initialSettingsState initialModel)).isBreadth
        = false) ∧
    (s.overrideRerank = true → saved.bind SavedChatSettings.rerankEnabled = none →
      (resolveSettings (some s) saved initialModel (initialSettingsState initialModel)).rerankEnabled
        = false) ∧
    (s.overridePrioritizeRecent = true →
      saved.bind SavedChatSettings.prioritizeRecent = none →
      (resolveSettings (some s) saved initialModel
          (initialSettingsState initialModel)).prioritizeRecent = false) := by
  refine ⟨fun h hb => ?_, fun h hb => ?_, fun h hb => ?_⟩ <;>
    cases saved <;>
    simp_all [resolveSettings, loadLocalSettings, applyTenantSettings, initialSettingsState]

/-- Witness for the amended C2 at a concrete tenant permitting all
overrides, with a stored settings object that has no flag fields. -/
theorem flag_default_false_when_override_allowed_witness :
    (resolveSettings
        (some { isBreadth := true, rerankEnabled := true, prioritizeRecent := true,
                overrideBreadth := true, overrideRerank := true,
                overridePrioritizeRecent := true })
        (some { isBreadth := none, rerankEnabled := none, prioritizeRecent := none,
                selectedModel := some "claude" })
        "gpt-4" (initialSettingsState "gpt-4")).isBreadth = false ∧
    (resolveSettings
        (some { isBreadth := true, rerankEnabled := true, prioritizeRecent := true,
                overrideBreadth := true, overrideRerank := true,
                overridePrioritizeRecent := true })
        (some { isBreadth := none, rerankEnabled := none, prioritizeRecent := none,
                selectedModel := some "claude" })
        "gpt-4" (initialSettingsState "gpt-4")).rerankEnabled = false ∧
    (resolveSettings
        (some { isBreadth := true, rerankEnabled := true, prioritizeRecent := true,
                overrideBreadth := true, overrideRerank := true,
                overridePrioritizeRecent := true })
        (some { isBreadth := none, rerankEnabled := none, prioritizeRecent := none,
                selectedModel := some "claude" })
        "gpt-4" (initialSettingsState "gpt-4")).prioritizeRecent = false := by
  have h := flag_default_false_when_override_allowed
    { isBreadth := true, rerankEnabled := true, prioritizeRecent := true,
      overrideBreadth := true, overrideRerank := true, overridePrioritizeRecent := true }
    (some { isBreadth := none, rerankEnabled := none, prioritizeRecent := none,
            selectedModel := some "claude" })
    "gpt-4"
  exact ⟨h.1 rfl rfl, h.2.1 rfl rfl, h.2.2 rfl rfl⟩

/-! ### Claims about the transcript and pending-message correlation -/

/-- Appending one message changes the role counts by exactly the appended
message's role. -/
theorem countRole_append_single (r : Role) (msgs : List Message) (m : Message) :
    countRole r (msgs ++ [m]) = countRole r msgs + (if m.role = r then 1 else 0) := by
  by_cases h : m.role = r <;> simp [countRole, List.filter_append, h]

/-- C3 counterexample: `onFinish` runs at stream completion, but when the
finished stream carried no valid object it appends no assistant entry at
all, so a submission can end with zero assistant entries. -/
theorem onFinish_can_append_zero_assistant :
    onFinishAppend none none [] = ([] : List Message) ∧
    ¬ (countRole .assistant (onFinishAppend none none [])
        = countRole .assistant ([] : List Message) + 1) := by
  decide

/-- C3 amended: a submission whose model has a provider appends exactly
one user-role entry (and no assistant entry) immediately; a submission
whose model has no provider appends nothing; at stream completion,
exactly one assistant-role entry (and no user entry) is appended when the
stream yielded a valid object, and zero entries when it did not. -/
theorem submit_and_finish_append_counts (content provider : String)
    (pm : Option LLMModel) (objContent : String) (msgs : List Message) :
    countRole .user (handleSubmit content (some provider) msgs)
      = countRole .user msgs + 1 ∧
    countRole .assistant (handleSubmit content (some provider) msgs)
      = countRole .assistant msgs ∧
    handleSubmit content none msgs = msgs ∧
    countRole .assistant (onFinishAppend (some objContent) pm msgs)
      = countRole .assistant msgs + 1 ∧
    countRole .user (onFinishAppend (some objContent) pm msgs)
      = countRole .user msgs ∧
    onFinishAppend none pm msgs = msgs := by
  refine ⟨?_, ?_, rfl, ?_, ?_, rfl⟩ <;>
    simp [handleSubmit, onFinishAppend, countRole_append_single]

/-- C5: the fetch middleware records the new `{id, model}` as the single
pending record, overwriting whatever pending record was there before; and
once the stamp effect finds the finalized assistant message as the last
transcript entry (stream no longer loading), it stamps that entry with the
pending id and clears the pending record. At most one pending record can
exist at any time because the state holds an `Option PendingMessage`. -/
theorem pending_single_slot_overwrite_and_clear :
    (∀ (st : ChatState) (id : String) (modelHeader : Option String), id ≠ "" →
      fetchMiddleware (some id) modelHeader st
        = .ok { st with pending := some { id := id, model := modelHeader } }) ∧
    (∀ (st : ChatState) (p : PendingMessage) (last : Message),
      st.pending = some p → st.isLoading = false →
      st.messages.getLast? = some last → last.role = .assistant →
      (stampPendingEffect st).pending = none ∧
      (stampPendingEffect st).messages.getLast? = some { last with id := some p.id }) := by
  constructor
  · intro st id modelHeader hid
    simp [fetchMiddleware, hid]
  · intro st p last hp hload hlast hrole
    constructor
    · simp [stampPendingEffect, hp, hload, hlast, hrole]
    · simp [stampPendingEffect, hp, hload, hlast, hrole]

/-- Witness for C5: a concrete state with a stale pending record that the
middleware overwrites, and a concrete finished state whose last assistant
entry gets stamped while the pending record is cleared. -/
theorem pending_single_slot_overwrite_and_clear_witness :
    (fetchMiddleware (some "msg-2") (some "gpt-4")
        { messages := [], pending := some { id := "msg-1", model := none }, isLoading := true }
      = .ok { messages := [], pending := some { id := "msg-2", model := some "gpt-4" },
              isLoading := true }) ∧
    ((stampPendingEffect
        { messages := [{ role := .assistant, content := "hi" }],
          pending := some { id := "msg-2", model := some "gpt-4" },
          isLoading := false }).pending = none ∧
      (stampPendingEffect
        { messages := [{ role := .assistant, content := "hi" }],
          pending := some { id := "msg-2", model := some "gpt-4" },
          isLoading := false }).messages.getLast?
        = some { role := .assistant, content := "hi", id := some "msg-2" }) := by
  have h := pending_single_slot_overwrite_and_clear
  refine ⟨?_, ?_⟩
  · exact h.1
      { messages := [], pending := some { id := "msg-1", model := none }, isLoading := true }
      "msg-2" (some "gpt-4") (by decide)
  · exact h.2
      { messages := [{ role := .assistant, content := "hi" }],
        pending := some { id := "msg-2", model := some "gpt-4" }, isLoading := false }
      { id := "msg-2", model := some "gpt-4" }
      { role := .assistant, content := "hi" }
      rfl rfl rfl rfl

/-! ### Claims about model selection and source attachment -/

/-- C6: whenever the selected model is not contained in the tenant's
enabled-model list, the enforcement effect replaces it with the list's
first entry (`enabledModels[0]`, which is the JS `undefined`, i.e.
`none`, exactly when the list is empty). -/
theorem model_enforced_to_first_enabled (enabledModels : List LLMModel)
    (selectedModel : LLMModel) (h : enabledModels.contains selectedModel = false) :
    enforceSelectedModel enabledModels selectedModel = enabledModels.head? ∧
    (∀ (a : LLMModel) (as : List LLMModel), enabledModels = a :: as →
      enforceSelectedModel enabledModels selectedModel = some a) := by
  have h' : ¬ (enabledModels.contains selectedModel = true) := by
    rw [h]
    exact Bool.false_ne_true
  constructor
  · simp only [enforceSelectedModel]
    rw [if_neg h']
  · intro a as hcons
    subst hcons
    simp only [enforceSelectedModel]
    rw [if_neg h']
    rfl

/-- Witness for C6: a selected model absent from a concrete two-element
enabled list is replaced by the list's first entry. -/
theorem model_enforced_to_first_enabled_witness :
    enforceSelectedModel ["gpt-4", "claude"] "o3" = (["gpt-4", "claude"] : List LLMModel).head? ∧
    enforceSelectedModel ["gpt-4", "claude"] "o3" = some "gpt-4" := by
  have h := model_enforced_to_first_enabled ["gpt-4", "claude"] "o3" (by decide)
  exact ⟨h.1, h.2 "gpt-4" ["claude"] rfl⟩

/-- C9: with an empty enabled-model list, the `selectedModel` initializer
returns the global initial model even though it is not enabled for the
tenant, and the enforcement effect assigns `enabledModels[0]` of the empty
list, which is the undefined model `none`. -/
theorem empty_enabled_models_behavior (initialModel selectedModel : LLMModel)
    (parseSuccess : Bool) :
    selectedModelInit [] initialModel parseSuccess = initialModel ∧
    ([] : List LLMModel).contains initialModel = false ∧
    enforceSelectedModel [] selectedModel = none := by
  refine ⟨rfl, rfl, ?_⟩
  simp [enforceSelectedModel]

/-- C7: every entry rendered by `messagesWithSources` is either an
unmodified transcript entry, or a transcript entry whose sources were
replaced by the cache entry stored under that entry's own id — so sources
cached for an id `M` are never attached to an entry whose id differs from
`M` or is absent. -/
theorem sources_attached_only_by_own_id
    (cache : List (String × List SourceMetadata)) (msgs : List Message) (m : Message)
    (hm : m ∈ messagesWithSources cache msgs) :
    m ∈ msgs ∨ ∃ i, m.id = some i ∧ cache.lookup i = some m.sources := by
  obtain ⟨m₀, hmem, heq⟩ := List.mem_map.mp hm
  have hmsgs : m₀ ∈ msgs := (List.mem_filter.mp hmem).1
  subst heq
  obtain ⟨role, content, id, sources, model⟩ := m₀
  cases role <;> cases id
  case user.none => exact Or.inl hmsgs
  case user.some _ => exact Or.inl hmsgs
  case system.none => exact Or.inl hmsgs
  case system.some _ => exact Or.inl hmsgs
  case assistant.none => exact Or.inl hmsgs
  case assistant.some i =>
    by_cases hi : i = ""
    · subst hi
      have hid : attachSources cache ⟨.assistant, content, some "", sources, model⟩
          = ⟨.assistant, content, some "", sources, model⟩ := by
        simp [attachSources]
      rw [hid]
      exact Or.inl hmsgs
    · cases hc : cache.lookup i with
      | none =>
        have hid : attachSources cache ⟨.assistant, content, some i, sources, model⟩
            = ⟨.assistant, content, some i, sources, model⟩ := by
          simp [attachSources, hi, hc]
        rw [hid]
        exact Or.inl hmsgs
      | some srcs =>
        refine Or.inr ⟨i, ?_, ?_⟩
        · simp [attachSources, hi, hc]
        · simp [attachSources, hi, hc]

/-- Witness for C7: a concrete rendered entry whose sources come from the
cache entry keyed by its own id. -/
theorem sources_attached_only_by_own_id_witness :
    ({ role := .assistant, content := "hi", id := some "m1", sources := ["doc-a"] } : Message)
        ∈ ([{ role := .assistant, content := "hi", id := some "m1" }] : List Message) ∨
    ∃ i, ({ role := .assistant, content := "hi", id := some "m1",
            sources := ["doc-a"] } : Message).id = some i ∧
      ([("m1", ["doc-a"])] : List (String × List SourceMetadata)).lookup i
        = some ({ role := .assistant, content := "hi", id := some "m1",
                  sources := ["doc-a"] } : Message).sources := by
  exact sources_attached_only_by_own_id [("m1", ["doc-a"])]
    [{ role := .assistant, content := "hi", id := some "m1" }]
    { role := .assistant, content := "hi", id := some "m1", sources := ["doc-a"] }
    (by decide)

/-! ### Claims about the tenant-setup route -/

/-- C4: with an authenticated session, a whitespace-only name fails
validation and leaves the state untouched, while a name that is non-empty
after trimming creates a tenant and a profile, binds the profile to the
user as current, and returns the new tenant identifier. -/
theorem tenantSetup_contract (s : Session) (rawName : String) (db : Db) :
    (jsTrim rawName = "" →
      postTenantSetup (some s) (some rawName) true db = (.error .validationError, db)) ∧
    (jsTrim rawName ≠ "" →
      ∃ tenantId profileId,
        (postTenantSetup (some s) (some rawName) true db).1 = .ok tenantId ∧
        ({ id := tenantId, name := jsTrim rawName } : Tenant)
          ∈ (postTenantSetup (some s) (some rawName) true db).2.tenants ∧
        ({ id := profileId, userId := s.userId, tenantId := tenantId } : Profile)
          ∈ (postTenantSetup (some s) (some rawName) true db).2.profiles ∧
        currentProfileOf (postTenantSetup (some s) (some rawName) true db).2 s.userId
          = some profileId) := by
  constructor
  · intro h
    simp [postTenantSetup, h]
  · intro h
    refine ⟨"tenant-" ++ toString db.tenants.length,
            "profile-" ++ toString db.profiles.length, ?_, ?_, ?_, ?_⟩ <;>
      simp [postTenantSetup, createTenant, setCurrentProfileId, currentProfileOf, h]

/-- Witness for C4: at a concrete empty database, a whitespace-only name
is rejected without a state change, and the name "  Acme  " creates the
tenant, the profile and the current-profile binding. -/
theorem tenantSetup_contract_witness :
    postTenantSetup (some { userId := "user-1" }) (some "   ") true
        { tenants := [], profiles := [], currentProfile := [] }
      = (.error .validationError,
         { tenants := [], profiles := [], currentProfile := [] }) ∧
    (∃ tenantId profileId,
      (postTenantSetup (some { userId := "user-1" }) (some "  Acme  ") true
          { tenants := [], profiles := [], currentProfile := [] }).1 = .ok tenantId ∧
      ({ id := tenantId, name := jsTrim "  Acme  " } : Tenant)
        ∈ (postTenantSetup (some { userId := "user-1" }) (some "  Acme  ") true
            { tenants := [], profiles := [], currentProfile := [] }).2.tenants ∧
      ({ id := profileId, userId := "user-1", tenantId := tenantId } : Profile)
        ∈ (postTenantSetup (some { userId := "user-1" }) (some "  Acme  ") true
            { tenants := [], profiles := [], currentProfile := [] }).2.profiles ∧
      currentProfileOf
          (postTenantSetup (some { userId := "user-1" }) (some "  Acme  ") true
            { tenants := [], profiles := [], currentProfile := [] }).2 "user-1"
        = some profileId) := by
  refine ⟨?_, ?_⟩
  · exact (tenantSetup_contract { userId := "user-1" } "   "
      { tenants := [], profiles := [], currentProfile := [] }).1 (by decide)
  · exact (tenantSetup_contract { userId := "user-1" } "  Acme  "
      { tenants := [], profiles := [], currentProfile := [] }).2 (by decide)

/-- C8: without a valid session the route rejects the request before any
business logic: the state is unchanged, and the outcome does not depend on
the request body, which is never parsed. -/
theorem tenantSetup_unauthenticated (body : Option String) (setCurrentOk : Bool) (db : Db) :
    postTenantSetup none body setCurrentOk db = (.error .unauthenticated, db) ∧
    (∀ body₂ : Option String,
      postTenantSetup none body setCurrentOk db
        = postTenantSetup none body₂ setCurrentOk db) :=
  ⟨rfl, fun _ => rfl⟩

/-- C10: the route is not atomic. When `setCurrentProfileId` fails after
`createTenant` has completed, the new tenant and profile remain created,
the user's current-profile pointer is unchanged, and no tenant identifier
is returned. -/
theorem tenantSetup_not_atomic (s : Session) (rawName : String) (db : Db)
    (h : jsTrim rawName ≠ "") :
    ∃ tenantId profileId,
      (postTenantSetup (some s) (some rawName) false db).1 = .error .internalError ∧
      ({ id := tenantId, name := jsTrim rawName } : Tenant)
        ∈ (postTenantSetup (some s) (some rawName) false db).2.tenants ∧
      ({ id := profileId, userId := s.userId, tenantId := tenantId } : Profile)
        ∈ (postTenantSetup (some s) (some rawName) false db).2.profiles ∧
      (postTenantSetup (some s) (some rawName) false db).2.currentProfile
        = db.currentProfile := by
  refine ⟨"tenant-" ++ toString db.tenants.length,
          "profile-" ++ toString db.profiles.length, ?_, ?_, ?_, ?_⟩ <;>
    simp [postTenantSetup, createTenant, h]

/-- Witness for C10 at a concrete database: the failed binding leaves the
created tenant and profile behind with the pointer untouched. -/
theorem tenantSetup_not_atomic_witness :
    ∃ tenantId profileId,
      (postTenantSetup (some { userId := "user-1" }) (some "Acme") false
          { tenants := [], profiles := [],
            currentProfile := [("user-1", "profile-old")] }).1 = .error .internalError ∧
      ({ id := tenantId, name := jsTrim "Acme" } : Tenant)
        ∈ (postTenantSetup (some { userId := "user-1" }) (some "Acme") false
            { tenants := [], profiles := [],
              currentProfile := [("user-1", "profile-old")] }).2.tenants ∧
      ({ id := profileId, userId := "user-1", tenantId := tenantId } : Profile)
        ∈ (postTenantSetup (some { userId := "user-1" }) (some "Acme") false
            { tenants := [], profiles := [],
              currentProfile := [("user-1", "profile-old")] }).2.profiles ∧
      (postTenantSetup (some { userId := "user-1" }) (some "Acme") false
          { tenants := [], profiles := [],
            currentProfile := [("user-1", "profile-old")] }).2.currentProfile
        = ({ tenants := [], profiles := [],
             currentProfile := [("user-1", "profile-old")] } : Db).currentProfile :=
  tenantSetup_not_atomic { userId := "user-1" } "Acme"
    { tenants := [], profiles := [], currentProfile := [("user-1", "profile-old")] }
    (by decide)

end Basechat
